import Mathlib

/-!
Verification of the Flotaris mobile front-end core logic: the Gantt timeline
layout (`GanttChart.calculateItemPosition`), the per-entity list query state
machines (vehicle schedules, maintenance orders, drivers), the debounced
search subsystem, the fetch/response application and the dashboard summary
aggregation, embedded shallowly from the TypeScript sources.
-/

namespace Flotaris

/-! ## Date model

JS `Date` values are embedded as a calendar day index (`day`) paired with a
millisecond-of-day offset (`ms`, with `ms < msPerDay` for every real
instant).  The order on instants is lexicographic, matching `<` on JS
`Date`.
-/

/-- Milliseconds in one civil day. -/
def msPerDay : Nat := 86400000

/-- A point in time: a civil day index and the millisecond offset inside
that day. -/
structure DateTime where
  day : Int
  ms : Nat
deriving DecidableEq, Repr

/-- The JS `<` comparison on `Date` instants (lexicographic on day then
millisecond-of-day). -/
def jsLt (a b : DateTime) : Prop :=
  a.day < b.day ∨ (a.day = b.day ∧ a.ms < b.ms)

instance (a b : DateTime) : Decidable (jsLt a b) := by
  unfold jsLt; infer_instance

/-! ## Date utilities

Modelled from the spec: `src/utils/dateUtils.ts` is imported by the Gantt
component but its body is not among the sources; the definitions below
follow spec section 4.1 (`daysBetween` is the inclusive day count with
same day giving 1, `addDays` offsets the calendar day, `parseRangeStart`
and `parseRangeEnd` parse a date-only string to the start-of-day and
end-of-day boundary, and empty or invalid strings fail).
-/

/-- Modelled from the spec: `addDays(date, n)` returns a new calendar date
`n` days offset; `n` may be negative (missing `src/utils/dateUtils.ts`). -/
def addDaysToDate (d : DateTime) (n : Int) : DateTime :=
  { d with day := d.day + n }

/-- Modelled from the spec: `daysBetween(a, b)` is the inclusive day count
between two calendar dates (same day gives 1), independent of
time-of-day components (missing `src/utils/dateUtils.ts`). -/
def getDaysBetweenDates (a b : DateTime) : Int :=
  b.day - a.day + 1

/-- Value of a decimal digit character, `none` on a non-digit. -/
def digitVal (c : Char) : Option Nat :=
  if c.isDigit then some (c.toNat - 48) else none

/-- Gregorian leap-year test. -/
def isLeapYear (y : Int) : Bool :=
  y % 4 == 0 && (y % 100 != 0 || y % 400 == 0)

/-- Number of days in month `m` of year `y`. -/
def daysInMonth (y : Int) (m : Nat) : Nat :=
  if m = 2 then (if isLeapYear y then 29 else 28)
  else if m = 4 ∨ m = 6 ∨ m = 9 ∨ m = 11 then 30
  else 31

/-- Day index of the civil date `y-m-d` (days since 1970-01-01, the
standard days-from-civil computation). -/
def daysFromCivil (y : Int) (m : Nat) (d : Nat) : Int :=
  let yAdj : Int := if m ≤ 2 then y - 1 else y
  let era : Int := (if 0 ≤ yAdj then yAdj else yAdj - 399) / 400
  let yoe : Int := yAdj - era * 400
  let mp : Int := ((m : Int) + 9) % 12
  let doy : Int := (153 * mp + 2) / 5 + (d : Int) - 1
  let doe : Int := yoe * 365 + yoe / 4 - yoe / 100 + doy
  era * 146097 + doe - 719468

/-- Parse a `YYYY-MM-DD` date-only string into its year, month and day;
`none` when the string is not a well-formed calendar date. -/
def parseYMD (s : String) : Option (Int × Nat × Nat) :=
  match s.data with
  | [y1, y2, y3, y4, s1, m1, m2, s2, d1, d2] =>
    if s1 = '-' ∧ s2 = '-' then
      match digitVal y1, digitVal y2, digitVal y3, digitVal y4,
            digitVal m1, digitVal m2, digitVal d1, digitVal d2 with
      | some a, some b, some c, some d, some e, some f, some g, some h =>
        let y : Int := ((a * 1000 + b * 100 + c * 10 + d : Nat) : Int)
        let mo : Nat := e * 10 + f
        let dy : Nat := g * 10 + h
        if 1 ≤ mo ∧ mo ≤ 12 ∧ 1 ≤ dy ∧ dy ≤ daysInMonth y mo then
          some (y, mo, dy)
        else none
      | _, _, _, _, _, _, _, _ => none
    else none
  | _ => none

/-- Modelled from the spec: `parseRangeStart` (`parseDate` in the sources)
parses a date-only string into the start-of-day boundary; empty or invalid
strings fail (missing `src/utils/dateUtils.ts`). -/
def parseDate (s : String) : Option DateTime :=
  (parseYMD s).map fun x => { day := daysFromCivil x.1 x.2.1 x.2.2, ms := 0 }

/-- Modelled from the spec: `parseRangeEnd` (`parseDateEnd` in the sources)
parses a date-only string into the end-of-day boundary, so that an item
ending on a day is present through that entire day (missing
`src/utils/dateUtils.ts`). -/
def parseDateEnd (s : String) : Option DateTime :=
  (parseYMD s).map fun x => { day := daysFromCivil x.1 x.2.1 x.2.2, ms := msPerDay - 1 }

/-! ## Timeline layout engine

From `src/features/schedules/components/DateNavigationModal.tsx`
(`GanttChart`): `DAY_WIDTH_PX = 120` and `calculateItemPosition`.
-/

/-- A timeline item as consumed by `calculateItemPosition`
(presentation-only fields such as title, color and details are omitted). -/
structure GanttItem where
  id : String
  vehicleId : String
  startDate : String
  endDate : String
deriving DecidableEq, Repr

/-- The pixel position returned for a visible item. -/
structure ItemPosition where
  left : Int
  width : Int
deriving DecidableEq, Repr

/-- `calculateItemPosition` from `GanttChart`: clips the item's parsed
date range to the visible window and converts it to a pixel offset and
width; `none` when the item is outside the window.  Per the spec's failure
semantics, an item whose dates fail to parse is excluded (`none`). -/
def calculateItemPosition (startDate : DateTime) (daysToShow : Int)
    (item : GanttItem) : Option ItemPosition :=
  match parseDate item.startDate, parseDateEnd item.endDate with
  | some itemStartDate, some itemEndDate =>
    let chartStartDate := startDate
    let chartEndDate := addDaysToDate startDate (daysToShow - 1)
    if jsLt itemEndDate chartStartDate ∨ jsLt chartEndDate itemStartDate then
      none
    else
      let visibleStartDate :=
        if jsLt itemStartDate chartStartDate then chartStartDate else itemStartDate
      let visibleEndDate :=
        if jsLt chartEndDate itemEndDate then chartEndDate else itemEndDate
      let daysFromStart := getDaysBetweenDates chartStartDate visibleStartDate - 1
      let visibleDays := getDaysBetweenDates visibleStartDate visibleEndDate
      let left := max 0 (daysFromStart * 120)
      let width := max 20 (visibleDays * 120 - 2)
      some { left := left, width := width }
  | _, _ => none

/-- A successfully parsed range start sits at the start-of-day boundary. -/
lemma parseDate_ms {s : String} {d : DateTime} (h : parseDate s = some d) :
    d.ms = 0 := by
  unfold parseDate at h
  cases hp : parseYMD s with
  | none => rw [hp] at h; simp at h
  | some x => rw [hp] at h; simp at h; rw [← h]

/-- A successfully parsed range end sits at the end-of-day boundary. -/
lemma parseDateEnd_ms {s : String} {d : DateTime} (h : parseDateEnd s = some d) :
    d.ms = msPerDay - 1 := by
  unfold parseDateEnd at h
  cases hp : parseYMD s with
  | none => rw [hp] at h; simp at h
  | some x => rw [hp] at h; simp at h; rw [← h]

/-- Claim C1: for every timeline window (`startDate`, `daysToShow ≥ 1`) and
every timeline item whose parsed date range lies fully outside the
inclusive window `[windowStart, windowStart + daysToShow - 1]` (its
end-of-day end is on an earlier day than the window start, or its
start-of-day start is on a later day than the window end),
`calculateItemPosition` returns `none`, so the item is not rendered. -/
theorem calculateItemPosition_outside_none
    (startDate : DateTime) (daysToShow : Int) (item : GanttItem)
    (ds de : DateTime)
    (h1 : 1 ≤ daysToShow)
    (hs : parseDate item.startDate = some ds)
    (he : parseDateEnd item.endDate = some de)
    (hout : de.day < startDate.day ∨ startDate.day + (daysToShow - 1) < ds.day) :
    calculateItemPosition startDate daysToShow item = none := by
  unfold calculateItemPosition
  rw [hs, he]
  simp only
  rw [if_pos]
  rcases hout with h | h
  · exact Or.inl (Or.inl h)
  · exact Or.inr (Or.inl h)

/-- Witness for C1: the window starting 2024-06-01 with 7 days excludes an
item spanning 2024-06-10 to 2024-06-12. -/
theorem calculateItemPosition_outside_none_witness :
    calculateItemPosition ⟨daysFromCivil 2024 6 1, 0⟩ 7
      ⟨"i1", "v1", "2024-06-10", "2024-06-12"⟩ = none :=
  calculateItemPosition_outside_none _ _ _
    ⟨daysFromCivil 2024 6 10, 0⟩ ⟨daysFromCivil 2024 6 12, msPerDay - 1⟩
    (by decide) (by decide) (by decide) (Or.inr (by decide))

/-- Claim C2: for every timeline item whose parsed date range lies fully
inside the window `[windowStart, windowStart + daysToShow - 1]`,
`calculateItemPosition` returns a position with `left ≥ 0` and
`left + width ≤ daysToShow * 120`, so no visible bar starts before the
chart's left edge or extends past its right edge. -/
theorem calculateItemPosition_inside_bounds
    (startDate : DateTime) (daysToShow : Int) (item : GanttItem)
    (ds de : DateTime)
    (hms : startDate.ms < msPerDay)
    (h1 : 1 ≤ daysToShow)
    (hs : parseDate item.startDate = some ds)
    (he : parseDateEnd item.endDate = some de)
    (hin1 : startDate.day ≤ ds.day)
    (hin2 : ds.day ≤ startDate.day + (daysToShow - 1))
    (hin3 : startDate.day ≤ de.day)
    (hin4 : de.day ≤ startDate.day + (daysToShow - 1)) :
    ∃ p, calculateItemPosition startDate daysToShow item = some p ∧
      0 ≤ p.left ∧ p.left + p.width ≤ daysToShow * 120 := by
  have hdsms : ds.ms = 0 := parseDate_ms hs
  have hdems : de.ms = msPerDay - 1 := parseDateEnd_ms he
  unfold calculateItemPosition
  rw [hs, he]
  simp only
  rw [if_neg]
  · have hvs : (if jsLt ds startDate then startDate else ds).day = ds.day := by
      split
      · rename_i hlt
        rcases hlt with h | ⟨h, _⟩
        · omega
        · omega
      · rfl
    have hve : (if jsLt (addDaysToDate startDate (daysToShow - 1)) de
        then addDaysToDate startDate (daysToShow - 1) else de).day = de.day := by
      split
      · rename_i hlt
        rcases hlt with h | ⟨h, _⟩
        · simp only [addDaysToDate] at h ⊢
          omega
        · simp only [addDaysToDate] at h ⊢
          omega
      · rfl
    refine ⟨_, rfl, ?_, ?_⟩
    · exact le_max_left _ _
    · simp only [getDaysBetweenDates, hvs, hve]
      omega
  · intro h
    rcases h with h | h
    · rcases h with h | ⟨h, h2⟩
      · omega
      · omega
    · rcases h with h | ⟨h, h2⟩
      · simp only [addDaysToDate] at h
        omega
      · simp only [addDaysToDate] at h h2
        rw [hdsms] at h2
        omega

/-- Witness for C2: the item spanning 2024-06-02 to 2024-06-03 lies inside
the 7-day window starting 2024-06-01 and gets an in-bounds position. -/
theorem calculateItemPosition_inside_bounds_witness :
    ∃ p, calculateItemPosition ⟨daysFromCivil 2024 6 1, 0⟩ 7
      ⟨"i2", "v1", "2024-06-02", "2024-06-03"⟩ = some p ∧
      0 ≤ p.left ∧ p.left + p.width ≤ 7 * 120 :=
  calculateItemPosition_inside_bounds _ _ _
    ⟨daysFromCivil 2024 6 2, 0⟩ ⟨daysFromCivil 2024 6 3, msPerDay - 1⟩
    (by decide) (by decide) (by decide) (by decide)
    (by decide) (by decide) (by decide) (by decide)

/-- Claim C3: a timeline item whose start or end date string is malformed is
excluded by the layout: `calculateItemPosition` returns `none` instead of
raising or producing a position, so one bad record never blocks the rest. -/
theorem calculateItemPosition_malformed_none
    (startDate : DateTime) (daysToShow : Int) (item : GanttItem)
    (h : parseDate item.startDate = none ∨ parseDateEnd item.endDate = none) :
    calculateItemPosition startDate daysToShow item = none := by
  unfold calculateItemPosition
  rcases h with h | h
  · rw [h]
  · rw [h]
    cases parseDate item.startDate <;> rfl

/-- Witness for C3: an item with an unparseable start date is excluded. -/
theorem calculateItemPosition_malformed_none_witness :
    calculateItemPosition ⟨daysFromCivil 2024 6 1, 0⟩ 7
      ⟨"i3", "v1", "garbage", "2024-06-03"⟩ = none :=
  calculateItemPosition_malformed_none _ _ _ (Or.inl (by decide))

/-! ## List query state machines

From `useVehicleSchedulesData` (in
`src/features/schedules/pages/VehicleSchedulesPage.tsx`),
`useMaintenanceOrdersData` and `useDriversData`.  Each hook's React state
variables are collected into one record; each action function is the state
transformation performed by its synchronous batch of state-setter calls.
Item and summary payloads are opaque to every transition, so items are
embedded as opaque identifiers (`String`) and summaries as opaque payloads
(`String`).
-/

/-- Sort direction (`'asc' | 'desc'`). -/
inductive SortDirection where
  | asc
  | desc
deriving DecidableEq, Repr

/-- Sort columns of the vehicle-schedules list. -/
inductive SchedSortColumn where
  | vehicleName
  | driverName
  | startDate
  | endDate
  | duration
  | status
deriving DecidableEq, Repr

/-- Sort columns of the maintenance-orders list. -/
inductive MaintSortColumn where
  | orderNumber
  | vehicleName
  | startDate
  | estimatedCompletionDate
  | cost
  | status
deriving DecidableEq, Repr

/-- Sort columns of the drivers list. -/
inductive DriverSortColumn where
  | name
  | email
  | idNumber
  | createdAt
deriving DecidableEq, Repr

/-- The state of `useVehicleSchedulesData`: query state, debounced search
term, and fetched data state. -/
structure SchedState where
  searchTerm : String
  statusFilters : List String
  sortBy : Option SchedSortColumn
  sortOrder : SortDirection
  currentPage : Int
  itemsPerPage : Int
  debouncedSearchTerm : String
  vehicleSchedules : List String
  totalCount : Int
  totalPages : Int
  hasNextPage : Bool
  hasPreviousPage : Bool
  loading : Bool
  error : Option String
  vehicleScheduleSummary : Option String
deriving DecidableEq, Repr

/-- `getInitialState` of `useVehicleSchedulesData` together with the
initial data state. -/
def schedInitialState : SchedState :=
  { searchTerm := ""
    statusFilters := ["active", "scheduled"]
    sortBy := some .startDate
    sortOrder := .desc
    currentPage := 1
    itemsPerPage := 6
    debouncedSearchTerm := ""
    vehicleSchedules := []
    totalCount := 0
    totalPages := 0
    hasNextPage := false
    hasPreviousPage := false
    loading := false
    error := none
    vehicleScheduleSummary := none }

/-- The shared filter-set updater of `toggleStatusFilter`: remove the
status when present, append it when absent (`prev.includes` /
`prev.filter` / spread-append in the sources). -/
def toggleStatusList (status : String) (prev : List String) : List String :=
  if status ∈ prev then prev.filter (fun s => s != status) else prev ++ [status]

/-- `setSearchTerm` of `useVehicleSchedulesData`: updates the term and
resets the page to 1 immediately. -/
def schedSetSearchTerm (term : String) (st : SchedState) : SchedState :=
  { st with searchTerm := term, currentPage := 1 }

/-- `toggleStatusFilter` of `useVehicleSchedulesData`. -/
def schedToggleStatusFilter (status : String) (st : SchedState) : SchedState :=
  { st with statusFilters := toggleStatusList status st.statusFilters
            currentPage := 1 }

/-- `clearStatusFilters` of `useVehicleSchedulesData` (resets to the
default filter pair). -/
def schedClearStatusFilters (st : SchedState) : SchedState :=
  { st with statusFilters := ["active", "scheduled"], currentPage := 1 }

/-- `setSorting` of `useVehicleSchedulesData`. -/
def schedSetSorting (column : SchedSortColumn) (st : SchedState) : SchedState :=
  if st.sortBy = some column then
    { st with sortOrder := (match st.sortOrder with | .asc => .desc | .desc => .asc)
              currentPage := 1 }
  else
    { st with sortBy := some column, sortOrder := .asc, currentPage := 1 }

/-- `setCurrentPage` of `useVehicleSchedulesData`: sets the page
unconditionally. -/
def schedSetCurrentPage (page : Int) (st : SchedState) : SchedState :=
  { st with currentPage := page }

/-- `setItemsPerPage` of `useVehicleSchedulesData`. -/
def schedSetItemsPerPage (limit : Int) (st : SchedState) : SchedState :=
  { st with itemsPerPage := limit, currentPage := 1 }

/-- `clearAllFilters` of `useVehicleSchedulesData`: restores search, the
default filter pair, default sort and page 1. -/
def schedClearAllFilters (st : SchedState) : SchedState :=
  { st with searchTerm := ""
            statusFilters := ["active", "scheduled"]
            sortBy := some .startDate
            sortOrder := .desc
            currentPage := 1 }

/-- The state of `useMaintenanceOrdersData`. -/
structure MaintState where
  searchTerm : String
  statusFilters : List String
  sortBy : Option MaintSortColumn
  sortOrder : SortDirection
  currentPage : Int
  itemsPerPage : Int
  debouncedSearchTerm : String
  maintenanceOrders : List String
  totalCount : Int
  totalPages : Int
  hasNextPage : Bool
  hasPreviousPage : Bool
  loading : Bool
  error : Option String
  maintenanceOrderSummary : Option String
deriving DecidableEq, Repr

/-- `getInitialState` of `useMaintenanceOrdersData` together with the
initial data state. -/
def maintInitialState : MaintState :=
  { searchTerm := ""
    statusFilters := ["active", "scheduled", "pending_authorization"]
    sortBy := some .startDate
    sortOrder := .desc
    currentPage := 1
    itemsPerPage := 10
    debouncedSearchTerm := ""
    maintenanceOrders := []
    totalCount := 0
    totalPages := 0
    hasNextPage := false
    hasPreviousPage := false
    loading := false
    error := none
    maintenanceOrderSummary := none }

/-- `toggleStatusFilter` of `useMaintenanceOrdersData`. -/
def maintToggleStatusFilter (status : String) (st : MaintState) : MaintState :=
  { st with statusFilters := toggleStatusList status st.statusFilters
            currentPage := 1 }

/-- `clearAllFilters` of `useMaintenanceOrdersData`: restores search, the
empty filter set, default sort and page 1. -/
def maintClearAllFilters (st : MaintState) : MaintState :=
  { st with searchTerm := ""
            statusFilters := []
            sortBy := some .startDate
            sortOrder := .desc
            currentPage := 1 }

/-- The state of `useDriversData` (the drivers list has no status-filter
set, only a name search and an email search). -/
structure DriverState where
  searchTerm : String
  emailSearchTerm : String
  sortBy : Option DriverSortColumn
  sortOrder : SortDirection
  currentPage : Int
  itemsPerPage : Int
  debouncedSearchTerm : String
  debouncedEmailSearchTerm : String
  drivers : List String
  totalCount : Int
  totalPages : Int
  hasNextPage : Bool
  hasPreviousPage : Bool
  loading : Bool
  error : Option String
deriving DecidableEq, Repr

/-- Initial state of `useDriversData`. -/
def driverInitialState : DriverState :=
  { searchTerm := ""
    emailSearchTerm := ""
    sortBy := none
    sortOrder := .asc
    currentPage := 1
    itemsPerPage := 10
    debouncedSearchTerm := ""
    debouncedEmailSearchTerm := ""
    drivers := []
    totalCount := 0
    totalPages := 0
    hasNextPage := false
    hasPreviousPage := false
    loading := false
    error := none }

/-- `clearAllFilters` of `useDriversData`: clears both search terms,
restores default sort (none, ascending) and page 1. -/
def driverClearAllFilters (st : DriverState) : DriverState :=
  { st with searchTerm := ""
            emailSearchTerm := ""
            sortBy := none
            sortOrder := .asc
            currentPage := 1 }

/-- `handlePageChange` of `VehicleTable`: forwards the requested page to
the page-change callback only when it lies in `[1, totalPages]`; otherwise
nothing happens. -/
def handlePageChange {σ : Type} (totalPages : Int)
    (onCurrentPageChange : Int → σ → σ) (page : Int) (st : σ) : σ :=
  if 1 ≤ page ∧ page ≤ totalPages then onCurrentPageChange page st else st

/-- Toggling the same status twice leaves the filter list equal as a set. -/
lemma mem_toggleStatusList_toggle (v x : String) (l : List String) :
    x ∈ toggleStatusList v (toggleStatusList v l) ↔ x ∈ l := by
  unfold toggleStatusList
  by_cases hv : v ∈ l
  · rw [if_pos hv]
    have hvf : v ∉ l.filter (fun s => s != v) := by
      simp [List.mem_filter]
    rw [if_neg hvf]
    simp only [List.mem_append, List.mem_filter, List.mem_singleton, bne_iff_ne, ne_eq]
    constructor
    · rintro (⟨h, _⟩ | rfl)
      · exact h
      · exact hv
    · intro h
      by_cases hx : x = v
      · exact Or.inr hx
      · exact Or.inl ⟨h, hx⟩
  · rw [if_neg hv]
    have hvin : v ∈ l ++ [v] := by simp
    rw [if_pos hvin]
    simp only [List.filter_append, List.mem_append, List.mem_filter, bne_iff_ne, ne_eq]
    constructor
    · rintro (⟨h, _⟩ | h)
      · exact h
      · simp at h
    · intro h
      exact Or.inl ⟨h, fun hxv => hv (hxv ▸ h)⟩

/-- A vehicle-schedules state on page 2 of 3, as reached after a fetch
reported three pages. -/
def exSchedState : SchedState :=
  { schedInitialState with
      currentPage := 2
      totalPages := 3
      totalCount := 18
      hasNextPage := true
      hasPreviousPage := true
      vehicleSchedules := ["s7", "s8", "s9", "s10", "s11", "s12"] }

/-- Counterexample to claim C4: with `totalPages = 3` known, calling the
hook's `setCurrentPage` with the out-of-range page 5 is not a no-op — the
page value changes to 5. -/
theorem setCurrentPage_out_of_range_changes_state :
    exSchedState.totalPages = 3 ∧
    exSchedState.currentPage = 2 ∧
    (schedSetCurrentPage 5 exSchedState).currentPage = 5 ∧
    schedSetCurrentPage 5 exSchedState ≠ exSchedState := by
  refine ⟨rfl, rfl, rfl, ?_⟩
  intro h
  have := congrArg SchedState.currentPage h
  simp [schedSetCurrentPage, exSchedState, schedInitialState] at this

/-- Claim C4 (amended): out-of-range page requests are rejected as no-ops
by the table component's `handlePageChange` wrapper, which invokes the
page-change callback only for `1 ≤ n ≤ totalPages`; the hook's
`setCurrentPage` itself sets any page value unconditionally. -/
theorem handlePageChange_out_of_range_noop {σ : Type} (totalPages page : Int)
    (onCurrentPageChange : Int → σ → σ) (st : σ)
    (h : page < 1 ∨ totalPages < page) :
    handlePageChange totalPages onCurrentPageChange page st = st := by
  unfold handlePageChange
  rw [if_neg]
  intro ⟨h1, h2⟩
  omega

/-- Witness for the amended C4: requesting page 5 of 3 through the table
wrapper leaves the state untouched. -/
theorem handlePageChange_out_of_range_noop_witness :
    handlePageChange 3 schedSetCurrentPage 5 exSchedState = exSchedState :=
  handlePageChange_out_of_range_noop 3 5 schedSetCurrentPage exSchedState
    (Or.inr (by decide))

/-- Claim C6: toggling the same status value twice in succession restores
the original filter set (as a set of values) and leaves the page at 1 —
each toggle resets the page, so after the two calls the page is exactly
the 1 produced by the single reset; this holds for both the
vehicle-schedules and the maintenance-orders hooks. -/
theorem toggleStatusFilter_twice_restores_filters
    (st : SchedState) (mt : MaintState) (v : String) :
    (∀ x, x ∈ (schedToggleStatusFilter v (schedToggleStatusFilter v st)).statusFilters
      ↔ x ∈ st.statusFilters) ∧
    (schedToggleStatusFilter v st).currentPage = 1 ∧
    (schedToggleStatusFilter v (schedToggleStatusFilter v st)).currentPage = 1 ∧
    (∀ x, x ∈ (maintToggleStatusFilter v (maintToggleStatusFilter v mt)).statusFilters
      ↔ x ∈ mt.statusFilters) ∧
    (maintToggleStatusFilter v mt).currentPage = 1 ∧
    (maintToggleStatusFilter v (maintToggleStatusFilter v mt)).currentPage = 1 := by
  refine ⟨fun x => ?_, rfl, rfl, fun x => ?_, rfl, rfl⟩
  · exact mem_toggleStatusList_toggle v x st.statusFilters
  · exact mem_toggleStatusList_toggle v x mt.statusFilters

/-- Claim C7: `clearAllFilters` resets search term, sort and page to their
defaults on every page, and restores the status-filter set to the entity's
documented default: the pair `active, scheduled` on the vehicle-schedules
page (not the empty set), the empty set on the maintenance-orders page,
and the drivers page carries no status-filter set at all (its filter state
is the two search terms, both cleared). -/
theorem clearAllFilters_restores_documented_defaults
    (st : SchedState) (mt : MaintState) (dt : DriverState) :
    (schedClearAllFilters st).searchTerm = "" ∧
    (schedClearAllFilters st).statusFilters = ["active", "scheduled"] ∧
    (schedClearAllFilters st).sortBy = some SchedSortColumn.startDate ∧
    (schedClearAllFilters st).sortOrder = SortDirection.desc ∧
    (schedClearAllFilters st).currentPage = 1 ∧
    (maintClearAllFilters mt).searchTerm = "" ∧
    (maintClearAllFilters mt).statusFilters = [] ∧
    (maintClearAllFilters mt).sortBy = some MaintSortColumn.startDate ∧
    (maintClearAllFilters mt).sortOrder = SortDirection.desc ∧
    (maintClearAllFilters mt).currentPage = 1 ∧
    (driverClearAllFilters dt).searchTerm = "" ∧
    (driverClearAllFilters dt).emailSearchTerm = "" ∧
    (driverClearAllFilters dt).sortBy = none ∧
    (driverClearAllFilters dt).sortOrder = SortDirection.asc ∧
    (driverClearAllFilters dt).currentPage = 1 :=
  ⟨rfl, rfl, rfl, rfl, rfl, rfl, rfl, rfl, rfl, rfl, rfl, rfl, rfl, rfl, rfl⟩

/-! ## Debounced search

From the debounce effect of the list hooks: every change of `searchTerm`
clears the pending timeout and schedules a new one that commits
`debouncedSearchTerm` 300 ms later; `setSearchTerm` itself also resets the
page to 1 synchronously.  Time is an explicit millisecond clock; a trace is
the list of `setSearchTerm` calls (each with its timestamp and the new,
changed term) followed by a final quiet period up to `tEnd`.  The committed
values are exactly the values whose fetches the debounced effect can
trigger.
-/

/-- The search-debounce fragment of a list hook's state: the live term, the
committed (debounced) term, the page, and the pending timeout
(deadline and the term its callback will commit). -/
structure DebounceState where
  searchTerm : String
  debouncedSearchTerm : String
  currentPage : Int
  timer : Option (Nat × String)
deriving DecidableEq, Repr

/-- Fire the pending timeout if its deadline has been reached by `now`:
commit its term into `debouncedSearchTerm` and record the commit. -/
def fireIfDue (now : Nat) (st : DebounceState) : DebounceState × List String :=
  match st.timer with
  | some (deadline, v) =>
    if deadline ≤ now then
      ({ st with debouncedSearchTerm := v, timer := none }, [v])
    else (st, [])
  | none => (st, [])

/-- A `setSearchTerm` call at time `now`: any timeout already due has fired
on the event loop before this call runs; the call then updates the term,
resets the page to 1 immediately, and the debounce effect replaces the
pending timeout with one due 300 ms from now for the new term. -/
def setSearchTermAt (now : Nat) (term : String) (st : DebounceState) :
    DebounceState × List String :=
  let fired := fireIfDue now st
  ({ fired.1 with searchTerm := term
                  currentPage := 1
                  timer := some (now + 300, term) }, fired.2)

/-- Run a list of timestamped `setSearchTerm` calls, accumulating the
committed values. -/
def runCalls (st : DebounceState) : List (Nat × String) → DebounceState × List String
  | [] => (st, [])
  | (t, term) :: rest =>
    let step := setSearchTermAt t term st
    let tail := runCalls step.1 rest
    (tail.1, step.2 ++ tail.2)

/-- Run a call trace and then stay quiet until time `tEnd`, letting any
remaining timeout fire. -/
def runTrace (st : DebounceState) (calls : List (Nat × String)) (tEnd : Nat) :
    DebounceState × List String :=
  let ran := runCalls st calls
  let fin := fireIfDue tEnd ran.1
  (fin.1, ran.2 ++ fin.2)

/-- The values the spec allows to be committed: exactly the calls followed
by a full 300 ms quiet period (until the next call, or until `tEnd` for
the last call). -/
def quietCommits : List (Nat × String) → Nat → List String
  | [], _ => []
  | (t, v) :: rest, tEnd =>
    match rest with
    | [] => if t + 300 ≤ tEnd then [v] else []
    | (tNext, _) :: _ =>
      (if t + 300 ≤ tNext then [v] else []) ++ quietCommits rest tEnd

/-- The initial debounce fragment: empty term, empty committed term,
page 1, no pending timeout. -/
def initDebounceState : DebounceState :=
  { searchTerm := ""
    debouncedSearchTerm := ""
    currentPage := 1
    timer := none }

/-- A pending timeout behaves exactly like a just-made call: the committed
values of the remaining trace are the quiet commits of the trace extended
with that call. -/
lemma runTrace_timer_quietCommits :
    ∀ (calls : List (Nat × String)) (st : DebounceState) (t : Nat) (v : String)
      (tEnd : Nat), st.timer = some (t + 300, v) →
      (runTrace st calls tEnd).2 = quietCommits ((t, v) :: calls) tEnd := by
  intro calls
  induction calls with
  | nil =>
    intro st t v tEnd h
    simp only [runTrace, runCalls, quietCommits, fireIfDue, h]
    split <;> simp
  | cons c rest ih =>
    intro st t v tEnd h
    obtain ⟨tc, vc⟩ := c
    have h1 : ((setSearchTermAt tc vc st).1).timer = some (tc + 300, vc) := rfl
    have htail := ih ((setSearchTermAt tc vc st).1) tc vc tEnd h1
    have hL : (runTrace st ((tc, vc) :: rest) tEnd).2 =
        (setSearchTermAt tc vc st).2 ++
          (runTrace (setSearchTermAt tc vc st).1 rest tEnd).2 := by
      simp only [runTrace, runCalls, List.append_assoc]
    rw [hL, htail]
    have hF : (setSearchTermAt tc vc st).2 = if t + 300 ≤ tc then [v] else [] := by
      simp only [setSearchTermAt, fireIfDue, h]
      split <;> rfl
    rw [hF]
    simp only [quietCommits]

/-- Claim C5 (amended): over every call trace starting from the initial
state, the committed (fetch-triggering) values are exactly the quiet
commits — a value typed and replaced within 300 ms is never committed and
never fetched, and only the last value of a rapid sequence survives its
quiet period; the page, however, is reset to 1 synchronously at every
`setSearchTerm` call, not after the debounce interval. -/
theorem debounce_commits_only_after_quiet_and_page_resets_immediately :
    (∀ (calls : List (Nat × String)) (tEnd : Nat),
      (runTrace initDebounceState calls tEnd).2 = quietCommits calls tEnd) ∧
    (∀ (st : DebounceState) (t : Nat) (term : String),
      (setSearchTermAt t term st).1.currentPage = 1 ∧
      (setSearchTermAt t term st).1.searchTerm = term) := by
  constructor
  · intro calls tEnd
    cases calls with
    | nil => rfl
    | cons c rest =>
      obtain ⟨t, v⟩ := c
      have h1 : ((setSearchTermAt t v initDebounceState).1).timer =
          some (t + 300, v) := rfl
      have htail := runTrace_timer_quietCommits rest
        ((setSearchTermAt t v initDebounceState).1) t v tEnd h1
      have hL : (runTrace initDebounceState ((t, v) :: rest) tEnd).2 =
          (setSearchTermAt t v initDebounceState).2 ++
            (runTrace (setSearchTermAt t v initDebounceState).1 rest tEnd).2 := by
        simp only [runTrace, runCalls, List.append_assoc]
      rw [hL, htail]
      rfl
  · intro st t term
    exact ⟨rfl, rfl⟩

/-- A debounce fragment sitting on page 5 with no pending timeout. -/
def exDebounceState : DebounceState :=
  { searchTerm := ""
    debouncedSearchTerm := ""
    currentPage := 5
    timer := none }

/-- Counterexample to claim C5: immediately after a `setSearchTerm` call at
time 0 — with the 300 ms debounce deadline still pending and the term not
yet committed — the page has already been reset from 5 to 1, so the page
reset is not delayed until the debounce interval elapses. -/
theorem page_reset_before_debounce_elapses :
    exDebounceState.currentPage = 5 ∧
    (setSearchTermAt 0 "a" exDebounceState).1.currentPage = 1 ∧
    (setSearchTermAt 0 "a" exDebounceState).1.debouncedSearchTerm = "" ∧
    (setSearchTermAt 0 "a" exDebounceState).1.timer = some (300, "a") :=
  ⟨rfl, rfl, rfl, rfl⟩

/-! ## Fetching and response application

`fetchData` of each hook builds the query parameters from the current
state, sets the loading flag, awaits the backend, and applies the response
— or, on rejection, the error reset — unconditionally when the promise
settles.  The asynchronous interleaving is modelled by a machine that
records the in-flight requests with their captured parameters and the
parameters of the most recent request; resolving a request applies its
result exactly as the `then`/`catch` continuations do.
-/

/-- The query parameters `fetchData` of `useVehicleSchedulesData` builds
from the current state (`|| undefined` turns an empty search, an empty
filter list and an unset sort column into an absent field). -/
structure SchedQueryParams where
  search : Option String
  status : Option (List String)
  sortBy : Option SchedSortColumn
  sortOrder : SortDirection
  page : Int
  limit : Int
deriving DecidableEq, Repr

/-- Build the request parameters captured by `fetchData` from the current
hook state. -/
def schedQueryParams (st : SchedState) : SchedQueryParams :=
  { search := if st.debouncedSearchTerm = "" then none else some st.debouncedSearchTerm
    status := if 0 < st.statusFilters.length then some st.statusFilters else none
    sortBy := st.sortBy
    sortOrder := st.sortOrder
    page := st.currentPage
    limit := st.itemsPerPage }

/-- A paginated vehicle-schedules backend response. -/
structure SchedResponse where
  vehicleSchedules : List String
  totalCount : Int
  totalPages : Int
  hasNextPage : Bool
  hasPreviousPage : Bool
deriving DecidableEq, Repr

/-- The synchronous prefix of `fetchData`: set the loading flag and clear
the error before awaiting the backend. -/
def schedFetchStart (st : SchedState) : SchedState :=
  { st with loading := true, error := none }

/-- The `then` continuation of `fetchData`: apply the paginated response
and the summary, clear the loading flag. -/
def schedFetchSuccess (resp : SchedResponse) (summary : String)
    (st : SchedState) : SchedState :=
  { st with vehicleSchedules := resp.vehicleSchedules
            totalCount := resp.totalCount
            totalPages := resp.totalPages
            hasNextPage := resp.hasNextPage
            hasPreviousPage := resp.hasPreviousPage
            vehicleScheduleSummary := some summary
            loading := false }

/-- The `catch` continuation of `fetchData`: record the error message and
reset every result field to its empty state in the same update. -/
def schedFetchFailure (msg : String) (st : SchedState) : SchedState :=
  { st with error := some msg
            vehicleSchedules := []
            totalCount := 0
            totalPages := 0
            hasNextPage := false
            hasPreviousPage := false
            vehicleScheduleSummary := none
            loading := false }

/-- Apply a settled fetch result (response or rejection) to the
vehicle-schedules hook state. -/
def schedApplyFetchResult (r : Except String (SchedResponse × String))
    (st : SchedState) : SchedState :=
  match r with
  | .ok (resp, summary) => schedFetchSuccess resp summary st
  | .error msg => schedFetchFailure msg st

/-- A paginated maintenance-orders backend response. -/
structure MaintResponse where
  maintenanceOrders : List String
  totalCount : Int
  totalPages : Int
  hasNextPage : Bool
  hasPreviousPage : Bool
deriving DecidableEq, Repr

/-- The `catch` continuation of `fetchData` in `useMaintenanceOrdersData`. -/
def maintFetchFailure (msg : String) (st : MaintState) : MaintState :=
  { st with error := some msg
            maintenanceOrders := []
            totalCount := 0
            totalPages := 0
            hasNextPage := false
            hasPreviousPage := false
            maintenanceOrderSummary := none
            loading := false }

/-- Apply a settled fetch result to the maintenance-orders hook state. -/
def maintApplyFetchResult (r : Except String (MaintResponse × String))
    (st : MaintState) : MaintState :=
  match r with
  | .ok (resp, summary) =>
    { st with maintenanceOrders := resp.maintenanceOrders
              totalCount := resp.totalCount
              totalPages := resp.totalPages
              hasNextPage := resp.hasNextPage
              hasPreviousPage := resp.hasPreviousPage
              maintenanceOrderSummary := some summary
              loading := false }
  | .error msg => maintFetchFailure msg st

/-- A paginated drivers backend response. -/
structure DriverResponse where
  drivers : List String
  totalCount : Int
  totalPages : Int
  hasNextPage : Bool
  hasPreviousPage : Bool
deriving DecidableEq, Repr

/-- The `catch` continuation of `fetchData` in `useDriversData` (the
drivers hook has no summary field). -/
def driverFetchFailure (msg : String) (st : DriverState) : DriverState :=
  { st with error := some msg
            drivers := []
            totalCount := 0
            totalPages := 0
            hasNextPage := false
            hasPreviousPage := false
            loading := false }

/-- Apply a settled fetch result to the drivers hook state. -/
def driverApplyFetchResult (r : Except String DriverResponse)
    (st : DriverState) : DriverState :=
  match r with
  | .ok resp =>
    { st with drivers := resp.drivers
              totalCount := resp.totalCount
              totalPages := resp.totalPages
              hasNextPage := resp.hasNextPage
              hasPreviousPage := resp.hasPreviousPage
              loading := false }
  | .error msg => driverFetchFailure msg st

/-- The vehicle-schedules hook together with its in-flight fetches: each
pending request carries the parameters captured when it was issued, and
`latestParams` records the parameters of the most recent request. -/
structure FetchMachine where
  state : SchedState
  pending : List (Nat × SchedQueryParams)
  latestParams : Option SchedQueryParams
  nextId : Nat
deriving DecidableEq, Repr

/-- Issue a fetch: capture the parameters from the current state, run the
synchronous prefix of `fetchData`, and record the in-flight request. -/
def startFetch (m : FetchMachine) : FetchMachine :=
  let p := schedQueryParams m.state
  { m with state := schedFetchStart m.state
           pending := m.pending ++ [(m.nextId, p)]
           latestParams := some p
           nextId := m.nextId + 1 }

/-- Apply a hook action (such as a page change) to the machine's state
while fetches may be in flight. -/
def applyAction (f : SchedState → SchedState) (m : FetchMachine) : FetchMachine :=
  { m with state := f m.state }

/-- A pending request settles: its continuation applies the result to the
hook state unconditionally — the sources contain no comparison of the
request's parameters against the current state. -/
def resolveFetch (id : Nat) (r : Except String (SchedResponse × String))
    (m : FetchMachine) : FetchMachine :=
  match m.pending.lookup id with
  | some _ =>
    { m with state := schedApplyFetchResult r m.state
             pending := m.pending.filter (fun q => q.1 != id) }
  | none => m

/-- The machine before any fetch. -/
def exMachine0 : FetchMachine :=
  { state := schedInitialState
    pending := []
    latestParams := none
    nextId := 0 }

/-- Page-1 response of the interleaving counterexample. -/
def exRespPage1 : SchedResponse :=
  { vehicleSchedules := ["s1", "s2", "s3", "s4", "s5", "s6"]
    totalCount := 12
    totalPages := 2
    hasNextPage := true
    hasPreviousPage := false }

/-- Page-2 response of the interleaving counterexample. -/
def exRespPage2 : SchedResponse :=
  { vehicleSchedules := ["s7", "s8", "s9", "s10", "s11", "s12"]
    totalCount := 12
    totalPages := 2
    hasNextPage := false
    hasPreviousPage := true }

/-- Request 0: initial fetch, parameters with page 1. -/
def exMachine1 : FetchMachine := startFetch exMachine0

/-- The user moves to page 2 while request 0 is in flight; request 1 is
issued with the page-2 parameters. -/
def exMachine2 : FetchMachine :=
  startFetch (applyAction (schedSetCurrentPage 2) exMachine1)

/-- The newer response (request 1, page 2) arrives first and is applied. -/
def exMachine3 : FetchMachine :=
  resolveFetch 1 (.ok (exRespPage2, "summary")) exMachine2

/-- The stale response (request 0, page 1) arrives last and is applied
too. -/
def exMachine4 : FetchMachine :=
  resolveFetch 0 (.ok (exRespPage1, "summary")) exMachine3

/-- Counterexample to claim C8: request 0 was issued with the page-1
parameters, the query state then moved to page 2 (request 1, the latest
parameters); the page-2 response arrives and is applied first, and the
stale page-1 response arriving last is applied as well — the visible items
end up being those of the stale response, not of the response matching the
latest query state. -/
theorem stale_response_overwrites_latest :
    exMachine2.pending.lookup 0 = some (schedQueryParams schedInitialState) ∧
    exMachine4.latestParams =
      some (schedQueryParams (schedSetCurrentPage 2 (schedFetchStart schedInitialState))) ∧
    schedQueryParams schedInitialState ≠
      schedQueryParams (schedSetCurrentPage 2 (schedFetchStart schedInitialState)) ∧
    exMachine3.state.vehicleSchedules = exRespPage2.vehicleSchedules ∧
    exMachine4.state.vehicleSchedules = exRespPage1.vehicleSchedules ∧
    exRespPage1.vehicleSchedules ≠ exRespPage2.vehicleSchedules := by
  refine ⟨by decide, by decide, by decide, by decide, by decide, by decide⟩

/-- Claim C8 (amended): the hook performs no staleness correlation — when
any pending request settles successfully, its response is applied to the
visible state unconditionally, whether or not its captured parameters
match the parameters of the latest request, so the last-arriving response
wins regardless of which request it answers. -/
theorem resolveFetch_ignores_staleness (m : FetchMachine) (id : Nat)
    (p : SchedQueryParams) (resp : SchedResponse) (summary : String)
    (h : m.pending.lookup id = some p) :
    (resolveFetch id (.ok (resp, summary)) m).state.vehicleSchedules =
      resp.vehicleSchedules ∧
    (resolveFetch id (.ok (resp, summary)) m).state.totalCount = resp.totalCount ∧
    (resolveFetch id (.ok (resp, summary)) m).state.totalPages = resp.totalPages ∧
    (resolveFetch id (.ok (resp, summary)) m).latestParams = m.latestParams := by
  simp [resolveFetch, h, schedApplyFetchResult, schedFetchSuccess]

/-- Witness for the amended C8: resolving the stale request 0 against the
machine that already holds the newer page-2 result applies the stale
response in full. -/
theorem resolveFetch_ignores_staleness_witness :
    (resolveFetch 0 (.ok (exRespPage1, "summary")) exMachine3).state.vehicleSchedules =
      exRespPage1.vehicleSchedules ∧
    (resolveFetch 0 (.ok (exRespPage1, "summary")) exMachine3).state.totalCount =
      exRespPage1.totalCount ∧
    (resolveFetch 0 (.ok (exRespPage1, "summary")) exMachine3).state.totalPages =
      exRespPage1.totalPages ∧
    (resolveFetch 0 (.ok (exRespPage1, "summary")) exMachine3).latestParams =
      exMachine3.latestParams :=
  resolveFetch_ignores_staleness exMachine3 0
    (schedQueryParams schedInitialState) exRespPage1 "summary" (by decide)

/-- Claim C10: in each of the three list hooks, a rejected fetch sets the
error message and, in the same update, resets the visible result to the
empty state — items empty, `totalCount = 0`, `totalPages = 0`,
`hasNextPage = false`, `hasPreviousPage = false`, and the summary cleared
where the hook has one — so stale items are never displayed alongside an
error. -/
theorem fetch_error_resets_visible_results
    (st : SchedState) (mt : MaintState) (dt : DriverState) (msg : String) :
    (schedApplyFetchResult (.error msg) st).error = some msg ∧
    (schedApplyFetchResult (.error msg) st).vehicleSchedules = [] ∧
    (schedApplyFetchResult (.error msg) st).totalCount = 0 ∧
    (schedApplyFetchResult (.error msg) st).totalPages = 0 ∧
    (schedApplyFetchResult (.error msg) st).hasNextPage = false ∧
    (schedApplyFetchResult (.error msg) st).hasPreviousPage = false ∧
    (schedApplyFetchResult (.error msg) st).vehicleScheduleSummary = none ∧
    (maintApplyFetchResult (.error msg) mt).error = some msg ∧
    (maintApplyFetchResult (.error msg) mt).maintenanceOrders = [] ∧
    (maintApplyFetchResult (.error msg) mt).totalCount = 0 ∧
    (maintApplyFetchResult (.error msg) mt).totalPages = 0 ∧
    (maintApplyFetchResult (.error msg) mt).hasNextPage = false ∧
    (maintApplyFetchResult (.error msg) mt).hasPreviousPage = false ∧
    (maintApplyFetchResult (.error msg) mt).maintenanceOrderSummary = none ∧
    (driverApplyFetchResult (.error msg) dt).error = some msg ∧
    (driverApplyFetchResult (.error msg) dt).drivers = [] ∧
    (driverApplyFetchResult (.error msg) dt).totalCount = 0 ∧
    (driverApplyFetchResult (.error msg) dt).totalPages = 0 ∧
    (driverApplyFetchResult (.error msg) dt).hasNextPage = false ∧
    (driverApplyFetchResult (.error msg) dt).hasPreviousPage = false :=
  ⟨rfl, rfl, rfl, rfl, rfl, rfl, rfl, rfl, rfl, rfl,
   rfl, rfl, rfl, rfl, rfl, rfl, rfl, rfl, rfl, rfl⟩

/-! ## Dashboard summary aggregation

From `DashboardScreen` in `src/screens/LoginScreen.tsx`: each derived
statistic uses the backend summary field when a summary object is present
and otherwise falls back to a client-side reduction over the fetched
vehicles; the extremal-cost vehicle cards come only from the backend
summary and have no client-side fallback.
-/

/-- A vehicle as consumed by the dashboard aggregation (`status` and the
possibly-missing `maintenanceCost` are the only fields used). -/
structure Vehicle where
  status : String
  maintenanceCost : Option Int
deriving DecidableEq, Repr

/-- The per-status vehicle counts behind the donut chart. -/
structure VehicleStatusCounts where
  active : Nat
  maintenance : Nat
  idle : Nat
deriving DecidableEq, Repr

/-- An extremal-cost vehicle as carried by the backend summary. -/
structure SummaryVehicle where
  name : String
  maintenanceCost : Int
  licensePlate : Option String
deriving DecidableEq, Repr

/-- The backend-supplied fleet summary object. -/
structure FleetSummary where
  totalVehicles : Nat
  totalDrivers : Nat
  activeVehiclesCount : Nat
  totalMaintenanceCost : Int
  vehicleStatusCounts : VehicleStatusCounts
  highestMaintenanceCostVehicle : Option SummaryVehicle
  lowestMaintenanceCostVehicle : Option SummaryVehicle
deriving DecidableEq, Repr

/-- The statistics the dashboard derives and renders. -/
structure DashboardStats where
  totalVehicles : Nat
  totalDrivers : Nat
  activeVehicles : Nat
  totalMaintenanceCost : Int
  statusCounts : VehicleStatusCounts
  highestMaintenanceCostVehicle : Option SummaryVehicle
  lowestMaintenanceCostVehicle : Option SummaryVehicle
deriving DecidableEq, Repr

/-- The dashboard aggregation of `DashboardScreen`: every count falls back
to a client-side reduction when no backend summary is present
(`summary?.field ?? clientReduction`), while the extremal-cost vehicles
come only from the summary (`summary?.highestMaintenanceCostVehicle`,
no fallback). -/
def dashboardStats (summary : Option FleetSummary) (vehicles : List Vehicle)
    (drivers : List String) : DashboardStats :=
  { totalVehicles :=
      match summary with
      | some s => s.totalVehicles
      | none => vehicles.length
    totalDrivers :=
      match summary with
      | some s => s.totalDrivers
      | none => drivers.length
    activeVehicles :=
      match summary with
      | some s => s.activeVehiclesCount
      | none => (vehicles.filter (fun v => v.status == "active")).length
    totalMaintenanceCost :=
      match summary with
      | some s => s.totalMaintenanceCost
      | none => vehicles.foldl (fun sum v => sum + v.maintenanceCost.getD 0) 0
    statusCounts :=
      match summary with
      | some s => s.vehicleStatusCounts
      | none =>
        { active := (vehicles.filter (fun v => v.status == "active")).length
          maintenance := (vehicles.filter (fun v => v.status == "maintenance")).length
          idle := (vehicles.filter (fun v => v.status == "idle")).length }
    highestMaintenanceCostVehicle :=
      match summary with
      | some s => s.highestMaintenanceCostVehicle
      | none => none
    lowestMaintenanceCostVehicle :=
      match summary with
      | some s => s.lowestMaintenanceCostVehicle
      | none => none }

/-- Claim C9: with an empty vehicle collection and no backend summary, the
dashboard aggregation yields all-zero counts — zero vehicles, zero
drivers, zero active vehicles, all per-status counts zero, zero total
maintenance cost — and no extremal-cost vehicle, without failing. -/
theorem dashboardStats_empty_collection_zero :
    dashboardStats none [] [] =
      { totalVehicles := 0
        totalDrivers := 0
        activeVehicles := 0
        totalMaintenanceCost := 0
        statusCounts := { active := 0, maintenance := 0, idle := 0 }
        highestMaintenanceCostVehicle := none
        lowestMaintenanceCostVehicle := none } := rfl

end Flotaris
